import Mathlib

/-!
Shallow embedding of the portfolio site's script (src/script.js): the landing-page
catalog loader and card renderer, the project-detail rendering pipeline, and the
contact-form mailto composer. JSON records are loosely shaped, so every string
field is an `Option String` (`none` = the JSON field is absent) and JavaScript
truthiness (`undefined` and `""` are falsy) is modelled explicitly; `body`,
`tags` and `images` are `some` exactly when `Array.isArray` holds for the field.
-/

set_option autoImplicit false
set_option maxRecDepth 100000

namespace Portfolio

/-- JavaScript truthiness of an optional string field: `undefined` and `""` are falsy. -/
def truthyStr : Option String → Bool
  | none => false
  | some s => !s.isEmpty

/-- The script's `o || d` fallback pattern on an optional string field. -/
def orElseStr (o : Option String) (d : String) : String :=
  if truthyStr o then o.getD "" else d

/-- Template-literal interpolation of a possibly-absent field, as in
    backtick-quoted strings of the script: an absent field prints as the
    literal text "undefined". -/
def interp : Option String → String
  | none => "undefined"
  | some s => s

/-- UTF-8 encoding of a single character, as a list of byte values. -/
def utf8Bytes (c : Char) : List Nat :=
  let n := c.toNat
  if n < 128 then [n]
  else if n < 2048 then [192 + n / 64, 128 + n % 64]
  else if n < 65536 then [224 + n / 4096, 128 + (n / 64) % 64, 128 + n % 64]
  else [240 + n / 262144, 128 + (n / 4096) % 64, 128 + (n / 64) % 64, 128 + n % 64]

/-- Upper-case hexadecimal digit for `0 ≤ n < 16`. -/
def hexDigit (n : Nat) : Char :=
  if n < 10 then Char.ofNat (48 + n) else Char.ofNat (55 + n)

/-- Percent-encoding of one byte: a percent sign followed by two hex digits. -/
def pctByte (n : Nat) : List Char :=
  [Char.ofNat 37, hexDigit (n / 16), hexDigit (n % 16)]

/-- The characters JavaScript's `encodeURIComponent` leaves unescaped:
    ASCII letters, digits, and - _ . ! ~ * apostrophe ( ). -/
def uriUnescaped (c : Char) : Bool :=
  (65 ≤ c.toNat && c.toNat ≤ 90) || (97 ≤ c.toNat && c.toNat ≤ 122) ||
  (48 ≤ c.toNat && c.toNat ≤ 57) ||
  c.toNat = 45 || c.toNat = 95 || c.toNat = 46 || c.toNat = 33 ||
  c.toNat = 126 || c.toNat = 42 || c.toNat = 39 || c.toNat = 40 || c.toNat = 41

/-- JavaScript's `encodeURIComponent`: every character outside the unescaped set
    is replaced by the percent-encoding of its UTF-8 bytes. -/
def encodeURIComponent (s : String) : String :=
  String.mk (s.data.foldr
    (fun c acc => (if uriUnescaped c then [c] else (utf8Bytes c).flatMap pctByte) ++ acc) [])

/-- JavaScript's `String.prototype.trim`: strip leading and trailing
    whitespace. -/
def jsTrim (s : String) : String :=
  String.mk (((s.data.dropWhile Char.isWhitespace).reverse.dropWhile Char.isWhitespace).reverse)

/-- One entry of a record's `images` array: either a bare string, or an object
    with optional `src` and `alt` fields. -/
inductive ImageEntry where
  | str (s : String)
  | obj (src : Option String) (alt : Option String)
deriving DecidableEq, Repr

/-- A loosely-shaped project record from `projects.json`. `none` means the JSON
    field is absent (or, for `tags`/`body`/`images`, not an array). -/
structure ProjectRecord where
  title : Option String := none
  description : Option String := none
  summary : Option String := none
  slug : Option String := none
  tags : Option (List String) := none
  cover : Option String := none
  link : Option String := none
  repo : Option String := none
  body : Option (List String) := none
  bodyHtml : Option String := none
  long : Option String := none
  images : Option (List ImageEntry) := none
deriving DecidableEq, Repr

/-- A rendered landing-page card, as built by `renderProjects`:
    accessible label, optional cover image (src and alt), title text,
    description text, tag pills in order, and the click/keyboard
    navigation target. -/
structure CardView where
  ariaLabel : String
  coverImg : Option (String × String)
  title : String
  desc : String
  tags : List String
  navTarget : String
deriving DecidableEq, Repr

/-- The navigation target of a card: `project.html?id=<slug>` with the slug
    percent-encoded and defaulting to "sample-project" (`p.slug || 'sample-project'`). -/
def cardNav (p : ProjectRecord) : String :=
  "project.html?id=" ++ encodeURIComponent (orElseStr p.slug "sample-project")

/-- The card built for one record by `renderProjects`: aria-label interpolates the
    raw title, cover image only when `p.cover` is truthy, title and description
    with their fallbacks, tags as-is, and the shared navigation target. -/
def cardOf (p : ProjectRecord) : CardView :=
  { ariaLabel := "Open " ++ interp p.title ++ " project"
    coverImg :=
      if truthyStr p.cover then some (p.cover.getD "", interp p.title ++ " cover") else none
    title := orElseStr p.title "Untitled"
    desc := orElseStr p.description "No description yet."
    tags := p.tags.getD []
    navTarget := cardNav p }

/-- `renderProjects`: one card per record, in catalog order. -/
def renderProjects (ps : List ProjectRecord) : List CardView :=
  ps.map cardOf

/-- Result of a card's keydown handler: the navigation performed (if any) and
    whether `preventDefault` was called. -/
structure KeyResult where
  navigated : Option String
  defaultPrevented : Bool
deriving DecidableEq, Repr

/-- A card's keydown handler: on "Enter" or " " (Space) it prevents the default
    action and runs the shared `go` navigation; any other key does nothing. -/
def cardKeydown (p : ProjectRecord) (key : String) : KeyResult :=
  if key = "Enter" || key = " " then
    { navigated := some (cardNav p), defaultPrevented := true }
  else
    { navigated := none, defaultPrevented := false }

/-- A card's click handler: runs the shared `go` navigation. -/
def cardClick (p : ProjectRecord) : Option String :=
  some (cardNav p)

/-- Outcome of the catalog fetch: the parsed array, or failure (non-2xx status
    or unparsable payload both throw and are caught as one failure). -/
inductive FetchResult where
  | ok (data : List ProjectRecord)
  | error
deriving DecidableEq, Repr

/-- The built-in fallback catalog used by `loadProjects` when the fetch fails. -/
def fallbackProjects : List ProjectRecord :=
  [{ title := some "Sample Project"
     description := some "Replace projects.json to populate real projects."
     slug := some "sample-project"
     tags := some ["demo", "starter"]
     cover := some "" }]

/-- `loadProjects`: render the fetched catalog, or the built-in fallback catalog
    when the fetch failed; the failure never propagates further. -/
def loadProjects (fr : FetchResult) : List CardView :=
  renderProjects (match fr with | .ok data => data | .error => fallbackProjects)

/-- A record's identifier as compared by the detail page: `x.slug || ''`. -/
def slugOrEmpty (x : ProjectRecord) : String :=
  orElseStr x.slug ""

/-- The detail page's record lookup: `data.find(x => (x.slug || '') === id)`. -/
def findProject (data : List ProjectRecord) (id : String) : Option ProjectRecord :=
  data.find? (fun x => slugOrEmpty x == id)

/-- The rendered long-form body: a list of plain-text paragraphs, or raw
    injected markup. An empty paragraph list is an empty body section. -/
inductive BodyRender where
  | paras (ps : List String)
  | html (s : String)
deriving DecidableEq, Repr

/-- The detail body decision chain: an array `body` gives one plain-text
    paragraph per entry; else truthy `bodyHtml` is injected as raw markup; else
    truthy `long`, then truthy `description`, give a single plain-text
    paragraph; else the section stays empty. -/
def renderBody (p : ProjectRecord) : BodyRender :=
  match p.body with
  | some l => .paras l
  | none =>
    if truthyStr p.bodyHtml then .html (p.bodyHtml.getD "")
    else if truthyStr p.long then .paras [p.long.getD ""]
    else if truthyStr p.description then .paras [p.description.getD ""]
    else .paras []

/-- A rendered gallery image: resolved src and alt text. -/
structure GalleryImg where
  src : String
  alt : String
deriving DecidableEq, Repr

/-- Source resolution for a gallery entry:
    `typeof it === 'string' ? it : it?.src`. -/
def imageSrc : ImageEntry → Option String
  | .str s => some s
  | .obj src _ => src

/-- Alt resolution for a gallery entry: the object's truthy `alt` if any, else
    the raw title interpolated into `"<title> image"`. -/
def imageAlt (p : ProjectRecord) : ImageEntry → String
  | .str _ => interp p.title ++ " image"
  | .obj _ alt => if truthyStr alt then alt.getD "" else interp p.title ++ " image"

/-- The gallery renderer: `images` normalized to `[]` unless an array; each
    entry is skipped when its resolved src is absent or empty (`if (!src) return`),
    and otherwise rendered with its resolved src and alt. -/
def galleryOf (p : ProjectRecord) : List GalleryImg :=
  (p.images.getD []).filterMap fun it =>
    match imageSrc it with
    | some s => if s.isEmpty then none else some { src := s, alt := imageAlt p it }
    | none => none

/-- One item of the detail meta block, in appended order. -/
inductive MetaItem where
  | tagsRow (ts : List String)
  | liveLink (url : String)
  | repoLink (url : String)
deriving DecidableEq, Repr

/-- The detail meta block: a tag row only for a non-empty tags array, then a
    "View Live" link for truthy `link`, then a "Source Code" link for truthy
    `repo`. -/
def metaOf (p : ProjectRecord) : List MetaItem :=
  (match p.tags with
   | some ts => if ts.isEmpty then [] else [.tagsRow ts]
   | none => []) ++
  (if truthyStr p.link then [.liveLink (p.link.getD "")] else []) ++
  (if truthyStr p.repo then [.repoLink (p.repo.getD "")] else [])

/-- The fully rendered detail page for one resolved record. -/
structure DetailView where
  title : String
  docTitle : String
  summary : String
  meta : List MetaItem
  body : BodyRender
  gallery : List GalleryImg
deriving DecidableEq, Repr

/-- The full detail render of a resolved record: visible title with its
    fallback, the document (tab) title with its own `'Project'` fallback, the
    summary chain, and the meta, body and gallery sections. -/
def renderDetail (p : ProjectRecord) : DetailView :=
  { title := orElseStr p.title "Untitled project"
    docTitle := orElseStr p.title "Project" ++ " • My Portfolio"
    summary := orElseStr p.summary (orElseStr p.description "")
    meta := metaOf p
    body := renderBody p
    gallery := galleryOf p }

/-- Outcome of the detail entry point: an error state that populates only the
    title and summary texts, or the full render of a resolved record. -/
inductive DetailOutcome where
  | errorState (title summary : String)
  | fullRender (v : DetailView)
deriving DecidableEq, Repr

/-- `loadProjectDetail`: with a falsy id (`!id`), report "Project not
    specified" before any fetch; else on fetch failure report "Error loading
    project"; else on a failed lookup report "Project not found" with the id
    echoed in the summary; else render the resolved record in full. -/
def loadProjectDetail (id : Option String) (fr : FetchResult) : DetailOutcome :=
  if !truthyStr id then
    .errorState "Project not specified" "Missing ?id=… in the URL."
  else
    match fr with
    | .error => .errorState "Error loading project" "Could not fetch projects.json."
    | .ok data =>
      match findProject data (id.getD "") with
      | none => .errorState "Project not found" ("No project with id=\"" ++ id.getD "" ++ "\".")
      | some p => .fullRender (renderDetail p)

/-- Outcome of a contact-form submit: the alerts issued and the navigation
    performed (the composed mailto target), if any. -/
structure ContactOutcome where
  alerts : List String
  navigated : Option String
deriving DecidableEq, Repr

/-- The recipient address hard-coded in `wireContactForm`. -/
def TO_EMAIL : String := "you@example.com"

/-- The submit handler installed by `wireContactForm`: trim the three fields;
    if any is empty, issue one alert and stop; otherwise compose the mailto
    target from the percent-encoded subject and newline-joined body and
    navigate to it. -/
def contactSubmit (name email message : String) : ContactOutcome :=
  let n := jsTrim name
  let e := jsTrim email
  let m := jsTrim message
  if n.isEmpty || e.isEmpty || m.isEmpty then
    { alerts := ["Please complete all fields."], navigated := none }
  else
    let subject := "Portfolio contact from " ++ n
    let bodyLines := ["Name: " ++ n, "Email: " ++ e, "", "Message:", m]
    let body := String.intercalate "\n" bodyLines
    { alerts := []
      navigated := some ("mailto:" ++ encodeURIComponent TO_EMAIL ++
        "?subject=" ++ encodeURIComponent subject ++
        "&body=" ++ encodeURIComponent body) }

end Portfolio

namespace Portfolio

/-- Helper: the `o || d` fallback on an absent field yields the default. -/
theorem orElseStr_none (d : String) : orElseStr none d = d := rfl

/-- Helper: the `o || d` fallback on an empty (falsy) string yields the default. -/
theorem orElseStr_falsy (s d : String) (h : s.isEmpty = true) : orElseStr (some s) d = d := by
  simp [orElseStr, truthyStr, h]

/-- Helper: the `o || d` fallback on a non-empty (truthy) string yields that string. -/
theorem orElseStr_truthy (s d : String) (h : s.isEmpty = false) : orElseStr (some s) d = s := by
  simp [orElseStr, truthyStr, h]

/-- Helper: a successful detail-page lookup returns a record whose identifier
    equals the requested id, and it is the first such record in catalog order. -/
theorem findProject_first (data : List ProjectRecord) (id : String) (p : ProjectRecord)
    (h : findProject data id = some p) :
    slugOrEmpty p = id ∧
      ∃ pre post, data = pre ++ p :: post ∧ ∀ q ∈ pre, slugOrEmpty q ≠ id := by
  induction data with
  | nil => simp [findProject] at h
  | cons a as ih =>
    by_cases ha : slugOrEmpty a = id
    · rw [findProject, List.find?_cons_of_pos _ (by simpa using ha)] at h
      cases h
      exact ⟨ha, [], as, rfl, by simp⟩
    · rw [findProject, List.find?_cons_of_neg _ (by simpa using ha)] at h
      obtain ⟨hp, pre, post, heq, hpre⟩ := ih (by rwa [findProject])
      refine ⟨hp, a :: pre, post, by rw [heq]; rfl, ?_⟩
      intro q hq
      rcases List.mem_cons.mp hq with h1 | h2
      · subst h1; exact ha
      · exact hpre q h2

/-- C1: `loadProjectDetail` settles missing/invalid input in strict priority
    order: a falsy id yields the "Project not specified" state with the exact
    summary text and the outcome is independent of the fetch (no fetch, no
    lookup); else a failed fetch yields the "Error loading project" state; else
    a failed lookup yields the "Project not found" state with the requested id
    echoed inside the summary; else the record is rendered in full. Every case
    returns a populated outcome, so nothing escapes the entry point. -/
theorem C1_detail_error_priority (id : Option String) (fr : FetchResult) :
    (truthyStr id = false →
      (loadProjectDetail id fr =
        .errorState "Project not specified" "Missing ?id=… in the URL.") ∧
      ∀ fr2, loadProjectDetail id fr = loadProjectDetail id fr2)
    ∧ (truthyStr id = true → fr = .error →
        loadProjectDetail id fr =
          .errorState "Error loading project" "Could not fetch projects.json.")
    ∧ (∀ data, truthyStr id = true → fr = .ok data → findProject data (id.getD "") = none →
        loadProjectDetail id fr =
          .errorState "Project not found" ("No project with id=\"" ++ id.getD "" ++ "\"."))
    ∧ (∀ data p, truthyStr id = true → fr = .ok data → findProject data (id.getD "") = some p →
        loadProjectDetail id fr = .fullRender (renderDetail p)) := by
  refine ⟨fun h => ⟨?_, fun fr2 => ?_⟩, fun h hfr => ?_, fun data h hfr hfind => ?_,
    fun data p h hfr hfind => ?_⟩
  · simp [loadProjectDetail, h]
  · simp [loadProjectDetail, h]
  · subst hfr; simp [loadProjectDetail, h]
  · subst hfr; simp [loadProjectDetail, h, hfind]
  · subst hfr; simp [loadProjectDetail, h, hfind]

/-- C1 witness: requesting id "abc" against an empty catalog reaches the
    "Project not found" state, with the id echoed in the summary. -/
theorem C1_detail_error_priority_witness :
    loadProjectDetail (some "abc") (.ok []) =
      .errorState "Project not found" "No project with id=\"abc\"." := by
  have h := (C1_detail_error_priority (some "abc") (.ok [])).2.2.1 [] (by decide) rfl (by decide)
  simpa using h

/-- C2: the detail body is selected by strict priority with exactly one
    representation honored: an array `body` gives one plain-text paragraph per
    entry in input order whatever the other fields hold; else truthy `bodyHtml`
    is injected as raw markup; else truthy `long`, then truthy `description`,
    give a single plain-text paragraph; else the body section stays empty. -/
theorem C2_body_priority (p : ProjectRecord) :
    (∀ l, p.body = some l → renderBody p = .paras l)
    ∧ (p.body = none → truthyStr p.bodyHtml = true →
        renderBody p = .html (p.bodyHtml.getD ""))
    ∧ (p.body = none → truthyStr p.bodyHtml = false → truthyStr p.long = true →
        renderBody p = .paras [p.long.getD ""])
    ∧ (p.body = none → truthyStr p.bodyHtml = false → truthyStr p.long = false →
        truthyStr p.description = true → renderBody p = .paras [p.description.getD ""])
    ∧ (p.body = none → truthyStr p.bodyHtml = false → truthyStr p.long = false →
        truthyStr p.description = false → renderBody p = .paras []) := by
  refine ⟨?_, ?_, ?_, ?_, ?_⟩ <;> intros <;> simp_all [renderBody]

/-- C2 witness: with body ["a", "b"], exactly two paragraphs render, "a" then
    "b", and bodyHtml/long/description on the same record are ignored. -/
theorem C2_body_priority_witness :
    renderBody { body := some ["a", "b"], bodyHtml := some "<b>x</b>", long := some "L",
                 description := some "D" } = .paras ["a", "b"] :=
  (C2_body_priority _).1 ["a", "b"] rfl

/-- C3: the resolver matches a record iff its identifier (slug, default "")
    is exactly string-equal to the requested id — case-sensitive, untrimmed —
    and a successful lookup returns the first match in catalog order; in
    particular the duplicate-slug example resolves to the record titled "A". -/
theorem C3_resolver_exact_first_match (data : List ProjectRecord) (id : String) :
    (findProject data id = none ↔ ∀ q ∈ data, slugOrEmpty q ≠ id)
    ∧ (∀ p, findProject data id = some p →
        slugOrEmpty p = id ∧
          ∃ pre post, data = pre ++ p :: post ∧ ∀ q ∈ pre, slugOrEmpty q ≠ id)
    ∧ findProject
        [{ slug := some "abc", title := some "A" }, { slug := some "abc", title := some "B" }]
        "abc" = some { slug := some "abc", title := some "A" }
    ∧ findProject [{ slug := some "ABC", title := some "A" }] "abc" = none
    ∧ findProject [{ slug := some " abc", title := some "A" }] "abc" = none := by
  refine ⟨?_, fun p h => findProject_first data id p h, by decide, by decide, by decide⟩
  rw [findProject, List.find?_eq_none]
  constructor
  · intro h q hq; simpa using h q hq
  · intro h q hq; simpa using h q hq

/-- C3 witness: in the duplicate-slug catalog, the returned record matches the
    id and is the first match in catalog order. -/
theorem C3_resolver_exact_first_match_witness :
    slugOrEmpty { slug := some "abc", title := some "A" } = "abc" ∧
      ∃ pre post,
        [({ slug := some "abc", title := some "A" } : ProjectRecord),
         { slug := some "abc", title := some "B" }] =
          pre ++ ({ slug := some "abc", title := some "A" } : ProjectRecord) :: post ∧
        ∀ q ∈ pre, slugOrEmpty q ≠ "abc" :=
  (C3_resolver_exact_first_match
      [{ slug := some "abc", title := some "A" }, { slug := some "abc", title := some "B" }]
      "abc").2.1 _ (by decide)

/-- C4: gallery normalization: absent/non-array `images` renders nothing; a
    list whose entries all lack a truthy resolved src renders nothing (each is
    skipped silently); the two-entry example renders exactly two images, the
    bare string with alt "<title> image" and the object with its own alt; and
    the `[{}]` example renders zero entries. -/
theorem C4_gallery_normalization (p : ProjectRecord) :
    (p.images = none → galleryOf p = [])
    ∧ (∀ l, p.images = some l → (∀ it ∈ l, truthyStr (imageSrc it) = false) →
        galleryOf p = [])
    ∧ (∀ t, p.title = some t →
        p.images = some [.str "x.png", .obj (some "y.png") (some "Y")] →
        galleryOf p = [{ src := "x.png", alt := t ++ " image" }, { src := "y.png", alt := "Y" }])
    ∧ (p.images = some [.obj none none] → galleryOf p = []) := by
  refine ⟨fun h => by simp [galleryOf, h], fun l hl hskip => ?_, fun t ht himg => ?_,
    fun h => by simp [galleryOf, h, imageSrc]⟩
  · rw [galleryOf, hl]
    simp only [Option.getD_some]
    rw [List.filterMap_eq_nil_iff]
    intro it hit
    have := hskip it hit
    cases hsrc : imageSrc it with
    | none => simp [hsrc]
    | some s =>
      rw [hsrc] at this
      simp only [truthyStr, Bool.not_eq_false'] at this
      simp [hsrc, this]
  · rw [galleryOf, himg]
    simp [imageSrc, imageAlt, ht, interp, truthyStr,
      show ("x.png").isEmpty = false from rfl,
      show ("y.png").isEmpty = false from rfl,
      show ("Y").isEmpty = false from rfl]

/-- C4 witness: the two-entry example on a record titled "T". -/
theorem C4_gallery_normalization_witness :
    galleryOf { title := some "T",
                images := some [.str "x.png", .obj (some "y.png") (some "Y")] } =
      [{ src := "x.png", alt := "T image" }, { src := "y.png", alt := "Y" }] :=
  (C4_gallery_normalization _).2.2.1 "T" rfl rfl

/-- C5: on a landing-page catalog fetch failure, `loadProjects` swallows the
    error and renders exactly one card, built from the single placeholder record
    with title "Sample Project", the default slug "sample-project", the
    informative description, and an empty cover — so the grid is not empty. -/
theorem C5_landing_fallback :
    loadProjects .error =
      [{ ariaLabel := "Open Sample Project project"
         coverImg := none
         title := "Sample Project"
         desc := "Replace projects.json to populate real projects."
         tags := ["demo", "starter"]
         navTarget := "project.html?id=sample-project" }] := by decide

/-- C6: `renderProjects` yields exactly one card per record in catalog order,
    and each card carries the record's title (fallback "Untitled"), description
    (fallback "No description yet.") and its tag pills in order. -/
theorem C6_cards_one_per_record (ps : List ProjectRecord) :
    (renderProjects ps).length = ps.length
    ∧ (∀ i : Nat, (renderProjects ps)[i]? = (ps[i]?).map cardOf)
    ∧ ∀ p : ProjectRecord,
        (p.title = none → (cardOf p).title = "Untitled")
        ∧ (∀ t, p.title = some t → t.isEmpty = false → (cardOf p).title = t)
        ∧ (p.description = none → (cardOf p).desc = "No description yet.")
        ∧ (∀ d, p.description = some d → d.isEmpty = false → (cardOf p).desc = d)
        ∧ (cardOf p).tags = p.tags.getD [] := by
  refine ⟨by simp [renderProjects], fun i => by simp [renderProjects], fun p => ?_⟩
  refine ⟨?_, ?_, ?_, ?_, rfl⟩ <;> intros <;> simp_all [cardOf, orElseStr, truthyStr]

/-- C6 witness: the fallbacks at a record with no title and no description, and
    the per-index card at a concrete one-record catalog. -/
theorem C6_cards_one_per_record_witness :
    (cardOf { title := none, description := none }).title = "Untitled"
    ∧ (cardOf { title := none, description := none }).desc = "No description yet." :=
  ⟨((C6_cards_one_per_record []).2.2 { title := none, description := none }).1 rfl,
   ((C6_cards_one_per_record []).2.2 { title := none, description := none }).2.2.1 rfl⟩

/-- C7 counterexample: for a record with no title, the rendered detail title is
    "Untitled project" but the tab title is "Project • My Portfolio" — the tab
    title does not reuse the rendered title's fallback. -/
theorem C7_tab_title_counterexample :
    (renderDetail { title := none }).title = "Untitled project"
    ∧ (renderDetail { title := none }).docTitle ≠ "Untitled project • My Portfolio"
    ∧ (renderDetail { title := none }).docTitle = "Project • My Portfolio" := by decide

/-- C7 (amended): the rendered detail title is record.title, or
    "Untitled project" when the title is absent or empty (never empty, and the
    fallback is never "undefined"); the tab title is "<t> • My Portfolio" where
    <t> is record.title when truthy but the fixed fallback "Project" otherwise,
    so it agrees with the rendered title exactly when a truthy title exists. -/
theorem C7_detail_title_amended (p : ProjectRecord) :
    ((p.title = none ∨ p.title = some "") → (renderDetail p).title = "Untitled project")
    ∧ (∀ t, p.title = some t → t.isEmpty = false → (renderDetail p).title = t)
    ∧ (renderDetail p).title ≠ ""
    ∧ ((p.title = none ∨ p.title = some "") → (renderDetail p).title ≠ "undefined")
    ∧ (renderDetail p).docTitle = orElseStr p.title "Project" ++ " • My Portfolio"
    ∧ (∀ t, p.title = some t → t.isEmpty = false →
        (renderDetail p).docTitle = (renderDetail p).title ++ " • My Portfolio") := by
  refine ⟨fun h => ?_, fun t ht hne => ?_, ?_, fun h => ?_, rfl, fun t ht hne => ?_⟩
  · show orElseStr p.title "Untitled project" = "Untitled project"
    rcases h with h | h
    · rw [h, orElseStr_none]
    · rw [h, orElseStr_falsy "" _ rfl]
  · show orElseStr p.title "Untitled project" = t
    rw [ht]; exact orElseStr_truthy t _ hne
  · show orElseStr p.title "Untitled project" ≠ ""
    rcases hp : p.title with _ | t
    · rw [orElseStr_none]; decide
    · by_cases hne : t.isEmpty = true
      · rw [orElseStr_falsy t _ hne]; decide
      · rw [orElseStr_truthy t _ (by simpa using hne)]
        intro hc; rw [hc] at hne; exact hne rfl
  · show orElseStr p.title "Untitled project" ≠ "undefined"
    rcases h with h | h
    · rw [h, orElseStr_none]; decide
    · rw [h, orElseStr_falsy "" _ rfl]; decide
  · show orElseStr p.title "Project" ++ " • My Portfolio" =
      orElseStr p.title "Untitled project" ++ " • My Portfolio"
    rw [ht, orElseStr_truthy t _ hne, orElseStr_truthy t _ hne]

/-- C7 witness: a record titled "X" renders title "X" and tab title
    "X • My Portfolio". -/
theorem C7_detail_title_amended_witness :
    (renderDetail { title := some "X" }).title = "X"
    ∧ (renderDetail { title := some "X" }).docTitle =
        (renderDetail { title := some "X" }).title ++ " • My Portfolio" :=
  ⟨(C7_detail_title_amended { title := some "X" }).2.1 "X" rfl rfl,
   (C7_detail_title_amended { title := some "X" }).2.2.2.2.2 "X" rfl rfl⟩

/-- C8: a card activates identically by click and by keyboard: the click
    handler and the keydown handler on "Enter" or " " (Space, with default
    prevented) both navigate to `project.html?id=<slug>` with the slug
    percent-encoded and defaulting to "sample-project"; other keys do nothing
    and do not prevent the default. -/
theorem C8_card_activation (p : ProjectRecord) (key : String) :
    cardClick p = some (cardNav p)
    ∧ ((key = "Enter" ∨ key = " ") →
        cardKeydown p key = { navigated := cardClick p, defaultPrevented := true })
    ∧ (key ≠ "Enter" → key ≠ " " →
        cardKeydown p key = { navigated := none, defaultPrevented := false })
    ∧ cardNav p = "project.html?id=" ++ encodeURIComponent (orElseStr p.slug "sample-project")
    ∧ (p.slug = none → cardNav p = "project.html?id=" ++ encodeURIComponent "sample-project") := by
  refine ⟨rfl, fun h => ?_, fun h1 h2 => ?_, rfl, fun h => ?_⟩
  · rcases h with h | h <;> simp [cardKeydown, cardClick, h]
  · simp [cardKeydown, h1, h2]
  · simp [cardNav, orElseStr, truthyStr, h]

/-- C8 witness: on a record with no slug, Space activates with default
    prevented and navigates to the default target. -/
theorem C8_card_activation_witness :
    cardKeydown { slug := none } " " =
      { navigated := some "project.html?id=sample-project", defaultPrevented := true } := by
  have h := (C8_card_activation { slug := none } " ").2.1 (Or.inr rfl)
  simpa using h

/-- C9: contact submission requires all three fields non-empty after trimming;
    otherwise exactly one blocking alert is issued and no navigation happens;
    when all three are non-empty, no alert is issued and the browsing context
    navigates to the mailto target composed from the percent-encoded subject
    "Portfolio contact from <name>" and the newline-joined body lines
    "Name: <name>", "Email: <email>", "", "Message:", and the message text. -/
theorem C9_contact_validation_and_mailto (name email message : String) :
    (((jsTrim name).isEmpty || (jsTrim email).isEmpty || (jsTrim message).isEmpty) = true →
      contactSubmit name email message =
        { alerts := ["Please complete all fields."], navigated := none })
    ∧ (((jsTrim name).isEmpty || (jsTrim email).isEmpty || (jsTrim message).isEmpty) = false →
      contactSubmit name email message =
        { alerts := []
          navigated := some ("mailto:" ++ encodeURIComponent TO_EMAIL ++
            "?subject=" ++ encodeURIComponent ("Portfolio contact from " ++ jsTrim name) ++
            "&body=" ++ encodeURIComponent (String.intercalate "\n"
              ["Name: " ++ jsTrim name, "Email: " ++ jsTrim email, "", "Message:",
               jsTrim message])) }) := by
  constructor <;> intro h <;> simp [contactSubmit, h]

/-- C9 witness: a whitespace-only message with non-empty name and email yields
    exactly one alert and no navigation. -/
theorem C9_contact_validation_and_mailto_witness :
    contactSubmit "Ann" "a@b.c" "   " =
      { alerts := ["Please complete all fields."], navigated := none } :=
  (C9_contact_validation_and_mailto "Ann" "a@b.c" "   ").1 (by decide)

/-- C10: when the title is absent, the raw field is interpolated into the
    accessibility strings: the card's aria-label is literally
    "Open undefined project", and a gallery entry without its own alt (a bare
    string, or an object with no truthy alt) gets alt text "undefined image". -/
theorem C10_undefined_interpolation (p : ProjectRecord) (h : p.title = none) :
    (cardOf p).ariaLabel = "Open undefined project"
    ∧ (∀ s, imageAlt p (.str s) = "undefined image")
    ∧ (∀ src alt, truthyStr alt = false → imageAlt p (.obj src alt) = "undefined image")
    ∧ (∀ s, s.isEmpty = false →
        galleryOf { p with images := some [.str s] } =
          [{ src := s, alt := "undefined image" }]) := by
  refine ⟨by simp [cardOf, interp, h], fun s => by simp [imageAlt, interp, h],
    fun src alt halt => by simp [imageAlt, interp, h, halt], fun s hs => ?_⟩
  simp [galleryOf, imageSrc, imageAlt, interp, h, hs]

/-- C10 witness: a record with no title yields the literal accessibility
    strings. -/
theorem C10_undefined_interpolation_witness :
    (cardOf { title := none }).ariaLabel = "Open undefined project"
    ∧ imageAlt { title := none } (.str "x.png") = "undefined image" :=
  ⟨(C10_undefined_interpolation { title := none } rfl).1,
   (C10_undefined_interpolation { title := none } rfl).2.1 "x.png"⟩

end Portfolio
